import Mathlib

/-!
Verification of the AstroCat plate-solve and catalog-matching core.

Shallow embedding of `backend/app/services/matching.py`,
`backend/app/tasks/astrometry.py` and the parts of
`backend/app/models` they use.  Floats are modelled as rationals,
database tables as lists, and the external pieces (PostGIS radius
queries, the astropy WCS object) as abstract functions carried in an
environment record.
-/

namespace AstroCat

/-- Catalog types, from `app/models/matches.py` (`CatalogType`). -/
inductive CatalogType where
  | MESSIER
  | NGC
  | IC
  | NAMED_STAR
deriving DecidableEq

/-- One row of `image_catalog_matches` as written by the matcher
(`ImageCatalogMatch`); the autogenerated id and `matched_at` timestamp
are not modelled. -/
structure MatchRow where
  image_id : Nat
  catalog_type : CatalogType
  catalog_designation : String
  angular_separation_degrees : ℚ
  is_in_field : Bool
  match_source : String
  confidence_score : ℚ
deriving DecidableEq

/-- A row returned by the three `_find_*_in_field` SQL queries:
`designation` and the angular distance `dist` (degrees). -/
structure QueryRow where
  designation : String
  dist : ℚ
deriving DecidableEq

/-- A catalog table row (`MessierCatalog` / `NGCCatalog` /
`NamedStarCatalog`): designation plus sky coordinates. -/
structure CatObj where
  designation : String
  ra_degrees : ℚ
  dec_degrees : ℚ
deriving DecidableEq

/-- The astropy WCS object, abstracted: `worldToPixel` models
`wcs.world_to_pixel_values`, returning `none` when the transformation
raises. -/
structure Wcs where
  worldToPixel : ℚ → ℚ → Option (ℚ × ℚ)

/-- The fields of the `Image` entity used by the matcher and the
astrometry tasks (`app/models/image.py`). -/
structure Image where
  id : Nat
  file_path : String
  is_plate_solved : Bool
  ra_center_degrees : Option ℚ
  dec_center_degrees : Option ℚ
  field_radius_degrees : Option ℚ
  pixel_scale_arcsec : Option ℚ
  rotation_degrees : Option ℚ
  width_pixels : Option Nat
  height_pixels : Option Nat
  astrometry_status : String
  plate_solve_provider : Option String
  updated_at : Int

/-- Python truthiness of an optional float: `None` and `0.0` are falsy
(the `if not image.ra_center_degrees` guard). -/
def pyTruthy (o : Option ℚ) : Bool :=
  match o with
  | none => false
  | some x => !(x == 0)

/-- Python `a or default` on an optional float: the default is used when
the value is absent or `0.0`. -/
def pyOrQ (o : Option ℚ) (default : ℚ) : ℚ :=
  match o with
  | none => default
  | some x => if x == 0 then default else x

/-- `designation.replace(' ', '')` — drop every space character. -/
def removeSpaces (s : String) : String :=
  String.mk (s.toList.filter (fun c => !(c == ' ')))

/-- Environment of `CatalogMatcher`: the image table lookup, the three
catalog tables, the three PostGIS radius queries (abstract: functions of
the query centre and radius), and the astropy WCS constructor
(abstract: applied once the required scalars are known present). -/
structure MatchEnv where
  getImage : Nat → Option Image
  messierCat : List CatObj
  ngcCat : List CatObj
  namedStarCat : List CatObj
  messierQuery : ℚ → ℚ → ℚ → List QueryRow
  ngcQuery : ℚ → ℚ → ℚ → List QueryRow
  starQuery : ℚ → ℚ → ℚ → List QueryRow
  buildWcs : Image → Option Wcs

/-- `scalar_one_or_none` over a filtered table: `some` exactly when the
filter selects a single row (zero rows give `none`; more than one row
raises, which the caller catches into `none`). -/
def scalarOneOrNone (rows : List CatObj) : Option CatObj :=
  match rows with
  | [o] => some o
  | _ => none

/-- `CatalogMatcher._get_catalog_coords`: exact-designation lookup per
catalog; for named stars a second, space-stripped comparison is tried
when the exact lookup finds nothing. -/
def getCatalogCoords (env : MatchEnv) (cat_type : CatalogType) (designation : String) :
    Option (ℚ × ℚ) :=
  match cat_type with
  | CatalogType.MESSIER =>
      (scalarOneOrNone (env.messierCat.filter (fun o => o.designation == designation))).map
        (fun o => (o.ra_degrees, o.dec_degrees))
  | CatalogType.NGC =>
      (scalarOneOrNone (env.ngcCat.filter (fun o => o.designation == designation))).map
        (fun o => (o.ra_degrees, o.dec_degrees))
  | CatalogType.IC =>
      (scalarOneOrNone (env.ngcCat.filter (fun o => o.designation == designation))).map
        (fun o => (o.ra_degrees, o.dec_degrees))
  | CatalogType.NAMED_STAR =>
      match env.namedStarCat.filter (fun o => o.designation == designation) with
      | [o] => some (o.ra_degrees, o.dec_degrees)
      | [] =>
          (scalarOneOrNone (env.namedStarCat.filter
              (fun o => removeSpaces o.designation == removeSpaces designation))).map
            (fun o => (o.ra_degrees, o.dec_degrees))
      | _ => none

/-- `CatalogMatcher._construct_wcs`: `none` unless all five required
scalars are present, then the (abstract) astropy construction. -/
def constructWcs (env : MatchEnv) (image : Image) : Option Wcs :=
  if image.ra_center_degrees.isSome && image.dec_center_degrees.isSome &&
     image.pixel_scale_arcsec.isSome && image.width_pixels.isSome &&
     image.height_pixels.isSome then
    env.buildWcs image
  else
    none

/-- `CatalogMatcher._is_in_image_bounds`: project to pixels and accept
within the image bounds extended by a 100 px margin; any failure
(transformation raising, or a missing width/height making the
comparison raise) excludes the object. -/
def isInImageBounds (w : Wcs) (ra dec : ℚ) (width height : Option Nat) : Bool :=
  match width, height, w.worldToPixel ra dec with
  | some wd, some ht, some (x, y) =>
      decide (-100 ≤ x) && decide (x ≤ (wd : ℚ) + 100) &&
      decide (-100 ≤ y) && decide (y ≤ (ht : ℚ) + 100)
  | _, _, _ => false

/-- The `ImageCatalogMatch` the matcher constructs for an accepted
candidate (matching.py lines 95-103). -/
def mkAutoMatch (imageId : Nat) (cat_type : CatalogType) (desig : String) (dist : ℚ) :
    MatchRow :=
  { image_id := imageId
    catalog_type := cat_type
    catalog_designation := desig
    angular_separation_degrees := dist
    is_in_field := true
    match_source := "AUTOMATIC"
    confidence_score := 1 - dist / 5 }

/-- The deduplication key `(catalog_type, designation)`. -/
def rowKey (m : MatchRow) : CatalogType × String :=
  (m.catalog_type, m.catalog_designation)

/-- The in-loop rejection test: with a WCS, skip a candidate whose
coordinates cannot be fetched or which projects outside the extended
bounds; without a WCS nothing is skipped. -/
def skipCheck (env : MatchEnv) (image : Image) (wcs : Option Wcs)
    (c : CatalogType × QueryRow) : Bool :=
  match wcs with
  | none => false
  | some w =>
      match getCatalogCoords env c.1 c.2.designation with
      | none => true
      | some (ra, dec) =>
          !(isInImageBounds w ra dec image.width_pixels image.height_pixels)

/-- State of the validation loop: the `seen_keys` set, the rows added to
the session, and `count`. -/
structure LoopState where
  seen : List (CatalogType × String)
  rows : List MatchRow
  count : Nat

/-- One iteration of the validation loop of `match_image`
(matching.py lines 76-105). -/
def processCandidate (env : MatchEnv) (image : Image) (imageId : Nat) (wcs : Option Wcs)
    (st : LoopState) (c : CatalogType × QueryRow) : LoopState :=
  let key := (c.1, c.2.designation)
  if key ∈ st.seen then st
  else if skipCheck env image wcs c then st
  else
    { seen := key :: st.seen
      rows := st.rows ++ [mkAutoMatch imageId c.1 c.2.designation c.2.dist]
      count := st.count + 1 }

/-- The candidate list in loop order: Messier rows, then NGC rows, then
named-star rows, each tagged with its catalog type. -/
def matchCandidates (env : MatchEnv) (image : Image) : List (CatalogType × QueryRow) :=
  let ra := image.ra_center_degrees.getD 0
  let dec := image.dec_center_degrees.getD 0
  let radius := pyOrQ image.field_radius_degrees 1
  (env.messierQuery ra dec radius).map (fun r => (CatalogType.MESSIER, r)) ++
  (env.ngcQuery ra dec radius).map (fun r => (CatalogType.NGC, r)) ++
  (env.starQuery ra dec radius).map (fun r => (CatalogType.NAMED_STAR, r))

/-- The whole validation loop: what one `match_image` run inserts for an
image that passed the preconditions. -/
def matchImageCore (env : MatchEnv) (image : Image) (imageId : Nat) : LoopState :=
  (matchCandidates env image).foldl
    (processCandidate env image imageId (constructWcs env image))
    { seen := [], rows := [], count := 0 }

/-- The row-deletion predicate of `match_image`: a stored row survives
the clearing step unless it belongs to this image with source
AUTOMATIC. -/
def keepRow (imageId : Nat) (m : MatchRow) : Bool :=
  !(m.image_id == imageId && m.match_source == "AUTOMATIC")

/-- `CatalogMatcher.match_image`: guards, clearing of AUTOMATIC rows,
candidate queries, WCS validation, insertion.  Returns the count and
the new content of `image_catalog_matches`. -/
def matchImage (env : MatchEnv) (db : List MatchRow) (imageId : Nat) :
    Nat × List MatchRow :=
  match env.getImage imageId with
  | none => (0, db)
  | some image =>
      if !image.is_plate_solved then (0, db)
      else if !(pyTruthy image.ra_center_degrees) || !(pyTruthy image.dec_center_degrees) then
        (0, db)
      else
        let cleared := db.filter (keepRow imageId)
        let st := matchImageCore env image imageId
        (st.count, cleared ++ st.rows)

/-- Modelled from the spec: the confidence formula the specification
states, `max(0, 1 - separation_degrees / 5.0)`, for comparison with the
code's unclamped formula. -/
def specConfidenceScore (separation : ℚ) : ℚ :=
  max 0 (1 - separation / 5)

/-- Modelled from the spec: designation normalization as the
specification defines it for point-object lookup — uppercase, spaces
removed. -/
def specNormalize (s : String) : String :=
  String.mk ((s.toList.filter (fun c => !(c == ' '))).map Char.toUpper)

/-! Embedding of `backend/app/tasks/astrometry.py`. -/

/-- A value in the hints dictionary handed to
`AstrometryService.upload_file`. -/
inductive HintVal where
  | num (q : ℚ)
  | str (s : String)
deriving DecidableEq

/-- The hints payload built by `_rescan_logic` (astrometry.py lines
122-139): empty after a FAILED run; otherwise centre/radius hints when
both centre coordinates are present and scale hints when the pixel
scale is present. -/
def computeHints (previousStatus : String) (image : Image) : List (String × HintVal) :=
  if previousStatus == "FAILED" then []
  else
    (if image.ra_center_degrees.isSome && image.dec_center_degrees.isSome then
      [("center_ra", HintVal.num (image.ra_center_degrees.getD 0)),
       ("center_dec", HintVal.num (image.dec_center_degrees.getD 0)),
       ("radius", HintVal.num (pyOrQ image.field_radius_degrees 5))]
     else []) ++
    (if image.pixel_scale_arcsec.isSome then
      [("scale_units", HintVal.str "arcsecperpix"),
       ("scale_lower", HintVal.num (image.pixel_scale_arcsec.getD 0 * (9 / 10))),
       ("scale_upper", HintVal.num (image.pixel_scale_arcsec.getD 0 * (11 / 10)))]
     else [])

/-- Outcome of the lock-guarded admission section of `_rescan_logic`. -/
inductive AdmissionOutcome where
  | retryAfter (seconds : Nat)
  | notFound
  | alreadyStarted
  | proceed (previousStatus : String) (file_path : String)
deriving DecidableEq

/-- Count of images in a non-terminal solver state, the quantity the
admission check compares against the ceiling (astrometry.py lines
79-83). -/
def activeSubmissionCount (imgs : List Image) : Nat :=
  (imgs.filter (fun i =>
    i.astrometry_status == "SUBMITTED" || i.astrometry_status == "PROCESSING")).length

/-- `select(Image).where(Image.id == image_id)` over the image table. -/
def findImage (imgs : List Image) (imageId : Nat) : Option Image :=
  imgs.find? (fun i => i.id == imageId)

/-- The lock-guarded admission section of `_rescan_logic` (astrometry.py
lines 77-108): over the ceiling, re-queue with a 20 s countdown and
change nothing; missing image and already-started image also change
nothing; otherwise capture the previous status and mark the image
SUBMITTED with the provider recorded. -/
def admissionCheck (maxSubmissions : Nat) (provider : String) (imgs : List Image)
    (imageId : Nat) : AdmissionOutcome × List Image :=
  if maxSubmissions ≤ activeSubmissionCount imgs then
    (AdmissionOutcome.retryAfter 20, imgs)
  else
    match findImage imgs imageId with
    | none => (AdmissionOutcome.notFound, imgs)
    | some image =>
        if image.astrometry_status == "SUBMITTED" ||
           image.astrometry_status == "PROCESSING" ||
           image.astrometry_status == "SOLVED" then
          (AdmissionOutcome.alreadyStarted, imgs)
        else
          (AdmissionOutcome.proceed image.astrometry_status image.file_path,
           imgs.map (fun i =>
             if i.id == imageId then
               { i with astrometry_status := "SUBMITTED",
                        plate_solve_provider := some provider.toUpper }
             else i))

/-- The reaper's staleness test (astrometry.py lines 337-339): status
SUBMITTED or PROCESSING and `updated_at` strictly before five minutes
(300 s, timestamps in seconds) ago. -/
def isStuck (now : Int) (img : Image) : Bool :=
  (img.astrometry_status == "SUBMITTED" || img.astrometry_status == "PROCESSING") &&
  decide (img.updated_at < now - 300)

/-- `cleanup_stuck_astrometry`: every stuck image is forced to FAILED,
everything else is untouched; returns the number swept and the new
image table. -/
def cleanupStuckAstrometry (now : Int) (imgs : List Image) : Nat × List Image :=
  ((imgs.filter (isStuck now)).length,
   imgs.map (fun img =>
     if isStuck now img then { img with astrometry_status := "FAILED" } else img))

/-! Helper lemmas about the validation loop of `match_image`. -/

/-- Each loop iteration either leaves the state unchanged or, when the
key is fresh and the candidate passed validation, appends exactly one
new row and records the key as seen. -/
theorem processCandidate_cases (env : MatchEnv) (image : Image) (imageId : Nat)
    (wcs : Option Wcs) (st : LoopState) (c : CatalogType × QueryRow) :
    processCandidate env image imageId wcs st c = st ∨
    (processCandidate env image imageId wcs st c =
        { seen := (c.1, c.2.designation) :: st.seen
          rows := st.rows ++ [mkAutoMatch imageId c.1 c.2.designation c.2.dist]
          count := st.count + 1 } ∧
      skipCheck env image wcs c = false ∧ (c.1, c.2.designation) ∉ st.seen) := by
  unfold processCandidate
  dsimp only
  by_cases h1 : (c.1, c.2.designation) ∈ st.seen
  · rw [if_pos h1]
    exact Or.inl rfl
  · rw [if_neg h1]
    by_cases h2 : skipCheck env image wcs c = true
    · rw [if_pos h2]
      exact Or.inl rfl
    · rw [if_neg h2]
      exact Or.inr ⟨rfl, by simpa using h2, h1⟩

/-- Rows already in the state survive the rest of the loop. -/
theorem foldl_rows_mono (env : MatchEnv) (image : Image) (imageId : Nat) (wcs : Option Wcs)
    (cs : List (CatalogType × QueryRow)) (st : LoopState) (m : MatchRow)
    (hm : m ∈ st.rows) :
    m ∈ (cs.foldl (processCandidate env image imageId wcs) st).rows := by
  induction cs generalizing st with
  | nil => simpa using hm
  | cons c cs ih =>
      simp only [List.foldl_cons]
      rcases processCandidate_cases env image imageId wcs st c with h | ⟨h, -, -⟩
      · rw [h]; exact ih st hm
      · rw [h]; exact ih _ (by simp [hm])

/-- Keys already realised by inserted rows survive the rest of the
loop. -/
theorem foldl_keys_mono (env : MatchEnv) (image : Image) (imageId : Nat) (wcs : Option Wcs)
    (cs : List (CatalogType × QueryRow)) (st : LoopState) (k : CatalogType × String)
    (hk : k ∈ st.rows.map rowKey) :
    k ∈ (cs.foldl (processCandidate env image imageId wcs) st).rows.map rowKey := by
  rcases List.mem_map.1 hk with ⟨m, hm, hmk⟩
  exact List.mem_map.2 ⟨m, foldl_rows_mono env image imageId wcs cs st m hm, hmk⟩

/-- A property holding of every row the loop can insert, and of every
row already present, holds of every row after the loop. -/
theorem foldl_rows_prop (env : MatchEnv) (image : Image) (imageId : Nat) (wcs : Option Wcs)
    (Q : MatchRow → Prop)
    (cs : List (CatalogType × QueryRow)) (st : LoopState)
    (hQ : ∀ c ∈ cs, skipCheck env image wcs c = false →
        Q (mkAutoMatch imageId c.1 c.2.designation c.2.dist))
    (hst : ∀ m ∈ st.rows, Q m) :
    ∀ m ∈ (cs.foldl (processCandidate env image imageId wcs) st).rows, Q m := by
  induction cs generalizing st with
  | nil => simpa using hst
  | cons c cs ih =>
      simp only [List.foldl_cons]
      rcases processCandidate_cases env image imageId wcs st c with h | ⟨h, hskip, -⟩
      · rw [h]
        exact ih st (fun d hd => hQ d (List.mem_cons_of_mem c hd)) hst
      · rw [h]
        refine ih _ (fun d hd => hQ d (List.mem_cons_of_mem c hd)) ?_
        intro m hm
        rcases List.mem_append.1 hm with hm | hm
        · exact hst m hm
        · rcases List.mem_singleton.1 hm with rfl
          exact hQ c (List.mem_cons_self c cs) hskip

/-- When nothing is skipped (no WCS), every candidate's key is realised
by an inserted row once the loop finishes, provided every key marked
seen is already realised. -/
theorem foldl_keys_cover (env : MatchEnv) (image : Image) (imageId : Nat) (wcs : Option Wcs)
    (cs : List (CatalogType × QueryRow)) (st : LoopState)
    (hskip : ∀ c ∈ cs, skipCheck env image wcs c = false)
    (hinv : ∀ k ∈ st.seen, k ∈ st.rows.map rowKey) :
    ∀ c ∈ cs, (c.1, c.2.designation) ∈
      (cs.foldl (processCandidate env image imageId wcs) st).rows.map rowKey := by
  induction cs generalizing st with
  | nil => intro c hc; simp at hc
  | cons c cs ih =>
      intro d hd
      simp only [List.foldl_cons]
      rcases processCandidate_cases env image imageId wcs st c with h | ⟨h, -, -⟩
      · rw [h]
        rcases List.mem_cons.1 hd with rfl | hd
        · -- the head was either already seen (hence realised) or it was accepted;
          -- with `skipCheck` false the unchanged case forces "already seen"
          have : (d.1, d.2.designation) ∈ st.seen := by
            by_contra hns
            have hsk := hskip d (List.mem_cons_self d cs)
            unfold processCandidate at h
            rw [if_neg hns, if_neg (by simp [hsk])] at h
            have := congrArg LoopState.count h
            simp at this
          exact foldl_keys_mono env image imageId wcs cs st _ (hinv _ this)
        · exact ih st (fun e he => hskip e (List.mem_cons_of_mem c he)) hinv d hd
      · rw [h]
        rcases List.mem_cons.1 hd with rfl | hd
        · refine foldl_keys_mono env image imageId wcs cs _ _ ?_
          simp [rowKey, mkAutoMatch]
        · refine ih _ (fun e he => hskip e (List.mem_cons_of_mem c he)) ?_ d hd
          intro k hk
          rcases List.mem_cons.1 hk with rfl | hk
          · simp [rowKey, mkAutoMatch]
          · have := hinv k hk
            simp only [List.map_append] at *
            exact List.mem_append_left _ this

/-- The loop never inserts two rows with the same
`(catalog_type, designation)` key, provided the keys realised so far are
distinct and all marked seen. -/
theorem foldl_keys_nodup (env : MatchEnv) (image : Image) (imageId : Nat) (wcs : Option Wcs)
    (cs : List (CatalogType × QueryRow)) (st : LoopState)
    (h1 : (st.rows.map rowKey).Nodup)
    (h2 : ∀ k ∈ st.rows.map rowKey, k ∈ st.seen) :
    ((cs.foldl (processCandidate env image imageId wcs) st).rows.map rowKey).Nodup := by
  induction cs generalizing st with
  | nil => simpa using h1
  | cons c cs ih =>
      simp only [List.foldl_cons]
      rcases processCandidate_cases env image imageId wcs st c with h | ⟨h, -, hfresh⟩
      · rw [h]; exact ih st h1 h2
      · rw [h]
        refine ih _ ?_ ?_
        · simp only [List.map_append]
          refine List.Nodup.append h1 (by simp) ?_
          intro k hk hk'
          have hkey : k = (c.1, c.2.designation) := by
            simpa [rowKey, mkAutoMatch] using hk'
          exact hfresh (hkey ▸ h2 k hk)
        · intro k hk
          simp only [List.map_append] at hk
          rcases List.mem_append.1 hk with hk | hk
          · exact List.mem_cons_of_mem _ (h2 k hk)
          · have : k = (c.1, c.2.designation) := by
              simpa [rowKey, mkAutoMatch] using hk
            simp [this]

/-- Every row the loop inserts belongs to the matched image and carries
source AUTOMATIC. -/
theorem matchImageCore_rows_srcAuto (env : MatchEnv) (image : Image) (imageId : Nat) :
    ∀ m ∈ (matchImageCore env image imageId).rows,
      m.image_id = imageId ∧ m.match_source = "AUTOMATIC" := by
  refine foldl_rows_prop env image imageId (constructWcs env image) _ _ _ ?_ (by simp)
  intro c _ _
  exact ⟨rfl, rfl⟩

/-- Every row the loop inserts is targeted by the clearing predicate of
the next run. -/
theorem matchImageCore_keepRow_false (env : MatchEnv) (image : Image) (imageId : Nat) :
    ∀ m ∈ (matchImageCore env image imageId).rows, keepRow imageId m = false := by
  intro m hm
  rcases matchImageCore_rows_srcAuto env image imageId m hm with ⟨h1, h2⟩
  simp [keepRow, h1, h2]

/-- The loop's keys are pairwise distinct. -/
theorem matchImageCore_keys_nodup (env : MatchEnv) (image : Image) (imageId : Nat) :
    (((matchImageCore env image imageId).rows.map rowKey)).Nodup := by
  exact foldl_keys_nodup env image imageId (constructWcs env image) _ _ (by simp) (by simp)

/-- `match_image` on the guard-failure paths: no image, not plate
solved, or a falsy centre coordinate — returns 0 and leaves the match
table untouched. -/
theorem matchImage_noop (env : MatchEnv) (db : List MatchRow) (imageId : Nat)
    (h : env.getImage imageId = none ∨
      ∃ image, env.getImage imageId = some image ∧
        (image.is_plate_solved = false ∨ pyTruthy image.ra_center_degrees = false ∨
         pyTruthy image.dec_center_degrees = false)) :
    matchImage env db imageId = (0, db) := by
  unfold matchImage
  rcases h with h | ⟨image, h, hcase⟩
  · rw [h]
  · rw [h]
    rcases hcase with hc | hc | hc
    · simp [hc]
    · rcases hb : image.is_plate_solved with _ | _
      · simp [hb]
      · simp [hc]
    · rcases hb : image.is_plate_solved with _ | _
      · simp [hb]
      · simp [hc]

/-- `match_image` on the success path: the cleared table plus the
loop's insertions. -/
theorem matchImage_run (env : MatchEnv) (db : List MatchRow) (imageId : Nat) (image : Image)
    (h1 : env.getImage imageId = some image)
    (h2 : image.is_plate_solved = true)
    (h3 : pyTruthy image.ra_center_degrees = true)
    (h4 : pyTruthy image.dec_center_degrees = true) :
    matchImage env db imageId =
      ((matchImageCore env image imageId).count,
       db.filter (keepRow imageId) ++ (matchImageCore env image imageId).rows) := by
  unfold matchImage
  rw [h1]
  simp [h2, h3, h4]

/-- Filtering is idempotent. -/
theorem filter_keep_idem (p : MatchRow → Bool) (l : List MatchRow) :
    (l.filter p).filter p = l.filter p := by
  refine List.filter_eq_self.2 ?_
  intro m hm
  exact List.of_mem_filter hm

/-- A second `match_image` run on an unchanged image reproduces the
first run's result exactly. -/
theorem matchImage_idem (env : MatchEnv) (db : List MatchRow) (imageId : Nat) :
    matchImage env (matchImage env db imageId).2 imageId = matchImage env db imageId := by
  rcases himg : env.getImage imageId with _ | image
  · rw [matchImage_noop env db imageId (Or.inl himg),
        matchImage_noop env db imageId (Or.inl himg)]
  · rcases hb : image.is_plate_solved with _ | _
    · have h := matchImage_noop env db imageId (Or.inr ⟨image, himg, Or.inl hb⟩)
      rw [h, matchImage_noop env db imageId (Or.inr ⟨image, himg, Or.inl hb⟩)]
    · rcases hra : pyTruthy image.ra_center_degrees with _ | _
      · have h := matchImage_noop env db imageId (Or.inr ⟨image, himg, Or.inr (Or.inl hra)⟩)
        rw [h, matchImage_noop env db imageId (Or.inr ⟨image, himg, Or.inr (Or.inl hra)⟩)]
      · rcases hdec : pyTruthy image.dec_center_degrees with _ | _
        · have h := matchImage_noop env db imageId
            (Or.inr ⟨image, himg, Or.inr (Or.inr hdec)⟩)
          rw [h, matchImage_noop env db imageId (Or.inr ⟨image, himg, Or.inr (Or.inr hdec)⟩)]
        · have hrun := matchImage_run env db imageId image himg hb hra hdec
          rw [hrun]
          have hrun2 := matchImage_run env
            (db.filter (keepRow imageId) ++ (matchImageCore env image imageId).rows)
            imageId image himg hb hra hdec
          rw [hrun2]
          have hnil : (matchImageCore env image imageId).rows.filter (keepRow imageId) = [] :=
            List.filter_eq_nil_iff.2 (fun m hm => by
              simp [matchImageCore_keepRow_false env image imageId m hm])
          have hclear :
              (db.filter (keepRow imageId) ++ (matchImageCore env image imageId).rows).filter
                (keepRow imageId) = db.filter (keepRow imageId) := by
            rw [List.filter_append, filter_keep_idem, hnil, List.append_nil]
          rw [hclear]

/-- Either `match_image` is a no-op, or it produced the cleared table
plus the loop's insertions for the looked-up image. -/
theorem matchImage_cases (env : MatchEnv) (db : List MatchRow) (imageId : Nat) :
    matchImage env db imageId = (0, db) ∨
    ∃ image, env.getImage imageId = some image ∧
      matchImage env db imageId =
        ((matchImageCore env image imageId).count,
         db.filter (keepRow imageId) ++ (matchImageCore env image imageId).rows) := by
  rcases himg : env.getImage imageId with _ | image
  · exact Or.inl (matchImage_noop env db imageId (Or.inl himg))
  · rcases hb : image.is_plate_solved with _ | _
    · exact Or.inl (matchImage_noop env db imageId (Or.inr ⟨image, himg, Or.inl hb⟩))
    · rcases hra : pyTruthy image.ra_center_degrees with _ | _
      · exact Or.inl (matchImage_noop env db imageId
          (Or.inr ⟨image, himg, Or.inr (Or.inl hra)⟩))
      · rcases hdec : pyTruthy image.dec_center_degrees with _ | _
        · exact Or.inl (matchImage_noop env db imageId
            (Or.inr ⟨image, himg, Or.inr (Or.inr hdec)⟩))
        · exact Or.inr ⟨image, rfl, matchImage_run env db imageId image himg hb hra hdec⟩

/-! The claims. -/

/-- Claim C2: running `match_image` twice in a row against an unchanged
image table yields exactly the same count and the same match table as
running it once, and no two rows inserted by one run share a
`(catalog_type, designation)` key. -/
theorem claim_C2_idempotent_nodup (env : MatchEnv) (db : List MatchRow) (imageId : Nat) :
    matchImage env (matchImage env db imageId).2 imageId = matchImage env db imageId ∧
    ∀ image : Image, ((matchImageCore env image imageId).rows.map rowKey).Nodup :=
  ⟨matchImage_idem env db imageId, fun image => matchImageCore_keys_nodup env image imageId⟩

/-- Claim C4: a missing image, an image that is not plate solved, or an
image with an absent centre coordinate makes `match_image` return 0 and
leave the match table completely untouched — no deletion and no
insertion. -/
theorem claim_C4_whole_image_noop (env : MatchEnv) (db : List MatchRow) (imageId : Nat)
    (h : env.getImage imageId = none ∨
      ∃ image, env.getImage imageId = some image ∧
        (image.is_plate_solved = false ∨ image.ra_center_degrees = none ∨
         image.dec_center_degrees = none)) :
    matchImage env db imageId = (0, db) := by
  refine matchImage_noop env db imageId ?_
  rcases h with h | ⟨image, h1, h2⟩
  · exact Or.inl h
  · refine Or.inr ⟨image, h1, ?_⟩
    rcases h2 with h2 | h2 | h2
    · exact Or.inl h2
    · exact Or.inr (Or.inl (by simp [pyTruthy, h2]))
    · exact Or.inr (Or.inr (by simp [pyTruthy, h2]))

/-- A match table holding one MANUAL row for image 7, used as a
concrete input. -/
def dbManual : List MatchRow :=
  [{ image_id := 7, catalog_type := CatalogType.MESSIER, catalog_designation := "M1",
     angular_separation_degrees := 0, is_in_field := true, match_source := "MANUAL",
     confidence_score := 1 }]

/-- An environment whose image lookup always fails. -/
def envNoImage : MatchEnv :=
  { getImage := fun _ => none
    messierCat := [], ngcCat := [], namedStarCat := []
    messierQuery := fun _ _ _ => []
    ngcQuery := fun _ _ _ => []
    starQuery := fun _ _ _ => []
    buildWcs := fun _ => none }

theorem claim_C4_witness : matchImage envNoImage dbManual 1 = (0, dbManual) :=
  claim_C4_whole_image_noop envNoImage dbManual 1 (Or.inl rfl)

/-- Claim C5: a `match_image` run only replaces the AUTOMATIC rows of
the matched image — every row outside that slice (other sources, other
images) survives unchanged, in order and multiplicity, and every row of
the result is either an original row or an AUTOMATIC row of this
image. -/
theorem claim_C5_automatic_rows_frame (env : MatchEnv) (db : List MatchRow) (imageId : Nat) :
    (matchImage env db imageId).2.filter (keepRow imageId) = db.filter (keepRow imageId) ∧
    ∀ m ∈ (matchImage env db imageId).2,
      m ∈ db ∨ (m.image_id = imageId ∧ m.match_source = "AUTOMATIC") := by
  rcases matchImage_cases env db imageId with h | ⟨image, -, h⟩
  · rw [h]
    exact ⟨rfl, fun m hm => Or.inl hm⟩
  · rw [h]
    constructor
    · dsimp only
      have hnil : (matchImageCore env image imageId).rows.filter (keepRow imageId) = [] :=
        List.filter_eq_nil_iff.2 (fun m hm => by
          simp [matchImageCore_keepRow_false env image imageId m hm])
      rw [List.filter_append, filter_keep_idem, hnil, List.append_nil]
    · intro m hm
      dsimp only at hm
      rcases List.mem_append.1 hm with hm | hm
      · exact Or.inl (List.mem_of_mem_filter hm)
      · exact Or.inr (matchImageCore_rows_srcAuto env image imageId m hm)

/-- A solved image with a populated astrometry summary, centred at
(10, 41). -/
def imgSolved : Image :=
  { id := 1, file_path := "/data/a.fits", is_plate_solved := true
    ra_center_degrees := some 10, dec_center_degrees := some 41
    field_radius_degrees := some 2, pixel_scale_arcsec := some 2
    rotation_degrees := some 0, width_pixels := some 1000, height_pixels := some 1000
    astrometry_status := "SOLVED", plate_solve_provider := some "NOVA", updated_at := 0 }

/-- Environment for the frame witness: image 1 is solved, catalogs and
queries are empty. -/
def envFrame : MatchEnv :=
  { getImage := fun i => if i == 1 then some imgSolved else none
    messierCat := [], ngcCat := [], namedStarCat := []
    messierQuery := fun _ _ _ => []
    ngcQuery := fun _ _ _ => []
    starQuery := fun _ _ _ => []
    buildWcs := fun _ => none }

/-- A MANUAL row of image 1 and an AUTOMATIC row of image 2: neither
may be touched by matching image 1. -/
def dbFrame : List MatchRow :=
  [{ image_id := 1, catalog_type := CatalogType.NGC, catalog_designation := "NGC224",
     angular_separation_degrees := 0, is_in_field := true, match_source := "MANUAL",
     confidence_score := 1 },
   { image_id := 2, catalog_type := CatalogType.MESSIER, catalog_designation := "M31",
     angular_separation_degrees := 0, is_in_field := true, match_source := "AUTOMATIC",
     confidence_score := 1 }]

theorem claim_C5_witness :
    ((matchImage envFrame dbFrame 1).2.filter (keepRow 1) = dbFrame.filter (keepRow 1)) ∧
    (dbFrame.get ⟨0, by decide⟩ ∈ dbFrame ∨
      ((dbFrame.get ⟨0, by decide⟩).image_id = 1 ∧
       (dbFrame.get ⟨0, by decide⟩).match_source = "AUTOMATIC")) :=
  ⟨(claim_C5_automatic_rows_frame envFrame dbFrame 1).1,
   (claim_C5_automatic_rows_frame envFrame dbFrame 1).2 (dbFrame.get ⟨0, by decide⟩)
     (by decide)⟩

/-- Claim C6: a submission whose image previously FAILED builds an
empty hints payload — no position hint and no scale hint — whatever
centre, radius or pixel scale the image stores. -/
theorem claim_C6_blind_after_failed (image : Image) : computeHints "FAILED" image = [] := by
  simp [computeHints]

/-- Claim C7: the reaper sweep forces exactly the images whose status
is SUBMITTED or PROCESSING and whose `updated_at` is older than the
five-minute threshold to FAILED, and leaves every other image
untouched. -/
theorem claim_C7_reaper_sweep (now : Int) (imgs : List Image) :
    (cleanupStuckAstrometry now imgs).2 = imgs.map (fun img =>
      if (img.astrometry_status = "SUBMITTED" ∨ img.astrometry_status = "PROCESSING") ∧
          img.updated_at < now - 300 then
        { img with astrometry_status := "FAILED" }
      else img) := by
  unfold cleanupStuckAstrometry
  dsimp only
  refine List.map_congr_left ?_
  intro img _
  by_cases h : (img.astrometry_status = "SUBMITTED" ∨ img.astrometry_status = "PROCESSING") ∧
      img.updated_at < now - 300
  · rw [if_pos h]
    have hs : isStuck now img = true := by
      rcases h with ⟨h1 | h1, h2⟩ <;> simp [isStuck, h1, h2]
    rw [if_pos hs]
  · rw [if_neg h]
    have hs : isStuck now img = false := by
      rcases hb : isStuck now img with _ | _
      · rfl
      · exfalso
        apply h
        simpa [isStuck] using hb
    rw [if_neg (by simp [hs])]

/-- Claim C8: when the active-submission count is at or above the
ceiling, the admission attempt is denied with a 20-second retry and the
image table — in particular the candidate image's status — is left
unchanged. -/
theorem claim_C8_admission_denied (maxSubmissions : Nat) (provider : String)
    (imgs : List Image) (imageId : Nat)
    (h : maxSubmissions ≤ activeSubmissionCount imgs) :
    admissionCheck maxSubmissions provider imgs imageId =
      (AdmissionOutcome.retryAfter 20, imgs) := by
  unfold admissionCheck
  rw [if_pos h]

/-- An image sitting in SUBMITTED state. -/
def imgInFlight (i : Nat) : Image :=
  { id := i, file_path := "", is_plate_solved := false
    ra_center_degrees := none, dec_center_degrees := none
    field_radius_degrees := none, pixel_scale_arcsec := none
    rotation_degrees := none, width_pixels := none, height_pixels := none
    astrometry_status := "SUBMITTED", plate_solve_provider := some "NOVA", updated_at := 0 }

/-- An image waiting to be admitted. -/
def imgWaiting : Image :=
  { id := 9, file_path := "/data/b.fits", is_plate_solved := false
    ra_center_degrees := none, dec_center_degrees := none
    field_radius_degrees := none, pixel_scale_arcsec := none
    rotation_degrees := none, width_pixels := none, height_pixels := none
    astrometry_status := "NONE", plate_solve_provider := none, updated_at := 0 }

/-- Eight in-flight images (the default ceiling) plus the waiting
candidate. -/
def imgsAtCeiling : List Image :=
  [imgInFlight 1, imgInFlight 2, imgInFlight 3, imgInFlight 4,
   imgInFlight 5, imgInFlight 6, imgInFlight 7, imgInFlight 8, imgWaiting]

theorem claim_C8_witness :
    admissionCheck 8 "nova" imgsAtCeiling 9 = (AdmissionOutcome.retryAfter 20, imgsAtCeiling) :=
  claim_C8_admission_denied 8 "nova" imgsAtCeiling 9 (by decide)

/-- Claim C10: a centre coordinate stored as exactly 0.0 is treated as
absent — `match_image` returns 0 and writes nothing, however complete
the rest of the astrometry summary is. -/
theorem claim_C10_zero_center_noop (env : MatchEnv) (db : List MatchRow) (imageId : Nat)
    (image : Image)
    (h1 : env.getImage imageId = some image)
    (h2 : image.ra_center_degrees = some 0 ∨ image.dec_center_degrees = some 0) :
    matchImage env db imageId = (0, db) := by
  refine matchImage_noop env db imageId (Or.inr ⟨image, h1, ?_⟩)
  rcases h2 with h2 | h2
  · exact Or.inr (Or.inl (by simp [pyTruthy, h2]))
  · exact Or.inr (Or.inr (by simp [pyTruthy, h2]))

/-- A plate-solved image with a full astrometry summary whose
declination centre is exactly 0.0 (a valid equatorial coordinate). -/
def imgDecZero : Image :=
  { id := 1, file_path := "/data/c.fits", is_plate_solved := true
    ra_center_degrees := some 10, dec_center_degrees := some 0
    field_radius_degrees := some 1, pixel_scale_arcsec := some 2
    rotation_degrees := some 0, width_pixels := some 1000, height_pixels := some 1000
    astrometry_status := "SOLVED", plate_solve_provider := some "NOVA", updated_at := 0 }

/-- Environment for the zero-centre witness: the radius query would
find an object, but the guard returns first. -/
def envDecZero : MatchEnv :=
  { getImage := fun i => if i == 1 then some imgDecZero else none
    messierCat := [⟨"M1", 10, 0⟩], ngcCat := [], namedStarCat := []
    messierQuery := fun _ _ _ => [⟨"M1", 0⟩]
    ngcQuery := fun _ _ _ => []
    starQuery := fun _ _ _ => []
    buildWcs := fun _ => none }

theorem claim_C10_witness : matchImage envDecZero dbManual 1 = (0, dbManual) :=
  claim_C10_zero_center_noop envDecZero dbManual 1 imgDecZero rfl (Or.inr rfl)

/-- Claim C1: with a WCS, a candidate is written only if its catalog
coordinates project to pixel coordinates inside the image bounds
extended by the 100 px margin on both axes; without a WCS every
candidate returned by the radius queries is accepted (its key is
realised by an inserted row) with no pixel validation. -/
theorem claim_C1_pixel_bounds_gate (env : MatchEnv) (image : Image) (imageId : Nat) :
    (∀ w : Wcs, constructWcs env image = some w →
      ∀ m ∈ (matchImageCore env image imageId).rows,
        ∃ cra cdec x y wd ht,
          getCatalogCoords env m.catalog_type m.catalog_designation = some (cra, cdec) ∧
          w.worldToPixel cra cdec = some (x, y) ∧
          image.width_pixels = some wd ∧ image.height_pixels = some ht ∧
          -100 ≤ x ∧ x ≤ (wd : ℚ) + 100 ∧ -100 ≤ y ∧ y ≤ (ht : ℚ) + 100) ∧
    (constructWcs env image = none →
      ∀ c ∈ matchCandidates env image,
        (c.1, c.2.designation) ∈ (matchImageCore env image imageId).rows.map rowKey) := by
  constructor
  · intro w hw
    refine foldl_rows_prop env image imageId (constructWcs env image)
      (fun m => ∃ cra cdec x y wd ht,
        getCatalogCoords env m.catalog_type m.catalog_designation = some (cra, cdec) ∧
        w.worldToPixel cra cdec = some (x, y) ∧
        image.width_pixels = some wd ∧ image.height_pixels = some ht ∧
        -100 ≤ x ∧ x ≤ (wd : ℚ) + 100 ∧ -100 ≤ y ∧ y ≤ (ht : ℚ) + 100)
      _ _ ?_ (by simp)
    intro c _ hskip
    rw [hw] at hskip
    unfold skipCheck at hskip
    rcases hco : getCatalogCoords env c.1 c.2.designation with _ | p
    · rw [hco] at hskip
      simp at hskip
    · obtain ⟨cra, cdec⟩ := p
      rw [hco] at hskip
      have hbnd : isInImageBounds w cra cdec image.width_pixels image.height_pixels = true := by
        simpa using hskip
      unfold isInImageBounds at hbnd
      rcases hwd : image.width_pixels with _ | wd <;> rw [hwd] at hbnd
      · simp at hbnd
      rcases hht : image.height_pixels with _ | ht <;> rw [hht] at hbnd
      · simp at hbnd
      rcases hxy : w.worldToPixel cra cdec with _ | q <;> rw [hxy] at hbnd
      · simp at hbnd
      obtain ⟨x, y⟩ := q
      simp only [Bool.and_eq_true, decide_eq_true_eq] at hbnd
      exact ⟨cra, cdec, x, y, wd, ht, hco, hxy, rfl, rfl,
        hbnd.1.1.1, hbnd.1.1.2, hbnd.1.2, hbnd.2⟩
  · intro hw
    refine foldl_keys_cover env image imageId (constructWcs env image) _ _ ?_ (by simp)
    intro c _
    rw [hw]
    rfl

/-- A projection sending every sky position to the image centre pixel,
used as the concrete WCS of the C1 witness. -/
def wcsLinear : Wcs :=
  ⟨fun _ _ => some (500, 500)⟩

/-- Environment for the C1 witness, WCS branch: one Messier candidate
whose coordinates project to the image centre. -/
def envBounds : MatchEnv :=
  { getImage := fun i => if i == 1 then some imgSolved else none
    messierCat := [⟨"M31", 10, 41⟩], ngcCat := [], namedStarCat := []
    messierQuery := fun _ _ _ => [⟨"M31", 0⟩]
    ngcQuery := fun _ _ _ => []
    starQuery := fun _ _ _ => []
    buildWcs := fun _ => some wcsLinear }

/-- Environment for the C1 witness, degraded branch: identical, but the
WCS construction fails. -/
def envDegraded : MatchEnv :=
  { getImage := fun i => if i == 1 then some imgSolved else none
    messierCat := [⟨"M31", 10, 41⟩], ngcCat := [], namedStarCat := []
    messierQuery := fun _ _ _ => [⟨"M31", 0⟩]
    ngcQuery := fun _ _ _ => []
    starQuery := fun _ _ _ => []
    buildWcs := fun _ => none }

/-- The validation loop on `envBounds` accepts exactly the single
candidate. -/
theorem envBounds_core_rows :
    (matchImageCore envBounds imgSolved 1).rows = [mkAutoMatch 1 CatalogType.MESSIER "M31" 0] := by
  have hcw : constructWcs envBounds imgSolved = some wcsLinear := rfl
  have hco : getCatalogCoords envBounds CatalogType.MESSIER "M31" = some (10, 41) := rfl
  have hbnd : isInImageBounds wcsLinear 10 41 (some 1000) (some 1000) = true := by
    norm_num [isInImageBounds, wcsLinear]
  have hskip : skipCheck envBounds imgSolved (some wcsLinear)
      (CatalogType.MESSIER, ⟨"M31", 0⟩) = false := by
    simp [skipCheck, hco]
    exact hbnd
  have hq1 : envBounds.messierQuery = fun _ _ _ => [⟨"M31", 0⟩] := rfl
  have hq2 : envBounds.ngcQuery = fun _ _ _ => [] := rfl
  have hq3 : envBounds.starQuery = fun _ _ _ => [] := rfl
  simp [matchImageCore, matchCandidates, hq1, hq2, hq3, hcw, processCandidate, hskip]

theorem claim_C1_witness :
    (∃ cra cdec x y wd ht,
      getCatalogCoords envBounds CatalogType.MESSIER "M31" = some (cra, cdec) ∧
      wcsLinear.worldToPixel cra cdec = some (x, y) ∧
      imgSolved.width_pixels = some wd ∧ imgSolved.height_pixels = some ht ∧
      -100 ≤ x ∧ x ≤ (wd : ℚ) + 100 ∧ -100 ≤ y ∧ y ≤ (ht : ℚ) + 100) ∧
    (CatalogType.MESSIER, "M31") ∈ (matchImageCore envDegraded imgSolved 1).rows.map rowKey :=
  ⟨(claim_C1_pixel_bounds_gate envBounds imgSolved 1).1 wcsLinear rfl
      (mkAutoMatch 1 CatalogType.MESSIER "M31" 0)
      (by rw [envBounds_core_rows]; exact List.mem_singleton.2 rfl),
   (claim_C1_pixel_bounds_gate envDegraded imgSolved 1).2 rfl
      (CatalogType.MESSIER, ⟨"M31", 0⟩)
      (by simp [matchCandidates, envDegraded])⟩

/-- A solved image whose field radius is 10° but whose pixel scale is
absent, so no WCS can be built and every candidate is accepted. -/
def imgWideField : Image :=
  { id := 1, file_path := "/data/d.fits", is_plate_solved := true
    ra_center_degrees := some 10, dec_center_degrees := some 41
    field_radius_degrees := some 10, pixel_scale_arcsec := none
    rotation_degrees := some 0, width_pixels := some 1000, height_pixels := some 1000
    astrometry_status := "SOLVED", plate_solve_provider := some "NOVA", updated_at := 0 }

/-- Environment with one candidate 10° from the image centre — inside
the 10° search radius but past the 5° confidence normalization. -/
def envFarCandidate : MatchEnv :=
  { getImage := fun i => if i == 1 then some imgWideField else none
    messierCat := [], ngcCat := [], namedStarCat := []
    messierQuery := fun _ _ _ => [⟨"M1", 10⟩]
    ngcQuery := fun _ _ _ => []
    starQuery := fun _ _ _ => []
    buildWcs := fun _ => none }

/-- Claim C3: the code stores `1 - dist/5` with no clamp.  At a
separation of 10° (legal whenever the search radius exceeds 5°) the
stored confidence score is -1: negative, and different from the
specified `max(0, 1 - dist/5)`, which is 0 here. -/
theorem claim_C3_confidence_unclamped :
    matchImage envFarCandidate [] 1 = (1, [mkAutoMatch 1 CatalogType.MESSIER "M1" 10]) ∧
    (mkAutoMatch 1 CatalogType.MESSIER "M1" 10).confidence_score = -1 ∧
    (mkAutoMatch 1 CatalogType.MESSIER "M1" 10).confidence_score < 0 ∧
    specConfidenceScore 10 = 0 := by
  have hcore : matchImageCore envFarCandidate imgWideField 1 =
      { seen := [(CatalogType.MESSIER, "M1")],
        rows := [mkAutoMatch 1 CatalogType.MESSIER "M1" 10], count := 1 } := by
    have hcw : constructWcs envFarCandidate imgWideField = none := rfl
    have hq1 : envFarCandidate.messierQuery = fun _ _ _ => [⟨"M1", 10⟩] := rfl
    have hq2 : envFarCandidate.ngcQuery = fun _ _ _ => [] := rfl
    have hq3 : envFarCandidate.starQuery = fun _ _ _ => [] := rfl
    simp [matchImageCore, matchCandidates, hq1, hq2, hq3, hcw, processCandidate, skipCheck]
  refine ⟨?_, by norm_num [mkAutoMatch], by norm_num [mkAutoMatch], ?_⟩
  · rw [matchImage_run envFarCandidate [] 1 imgWideField rfl rfl rfl rfl, hcore]
    rfl
  · rw [specConfidenceScore, max_eq_left (by norm_num)]

/-- A named-star table whose single entry stores a spaced,
mixed-case designation. -/
def envStarMixedCase : MatchEnv :=
  { getImage := fun _ => none
    messierCat := [], ngcCat := [], namedStarCat := [⟨"Ab C", 10, 20⟩]
    messierQuery := fun _ _ _ => []
    ngcQuery := fun _ _ _ => []
    starQuery := fun _ _ _ => []
    buildWcs := fun _ => none }

/-- Claim C9 counterexample: "Ab C" and "abc" agree after the
specification's normalization (uppercase, spaces removed), yet the
code's lookup — which only strips spaces and compares case-sensitively
— fails to find the star. -/
theorem claim_C9_counterexample :
    specNormalize "Ab C" = specNormalize "abc" ∧
    getCatalogCoords envStarMixedCase CatalogType.NAMED_STAR "abc" = none := by
  decide

/-- Claim C9 as amended: point-object lookup succeeds whenever exactly
one stored designation equals the query exactly, or no stored
designation does and exactly one matches after removing spaces —
comparison stays case-sensitive, so spaced and unspaced forms are
bridged only when the letter case agrees. -/
theorem claim_C9_space_normalized_lookup (env : MatchEnv) (designation : String)
    (h : (env.namedStarCat.filter (fun o => o.designation == designation)).length = 1 ∨
      ((env.namedStarCat.filter (fun o => o.designation == designation)) = [] ∧
       (env.namedStarCat.filter
          (fun o => removeSpaces o.designation == removeSpaces designation)).length = 1)) :
    (getCatalogCoords env CatalogType.NAMED_STAR designation).isSome = true := by
  unfold getCatalogCoords
  rcases h with h | ⟨h1, h2⟩
  · rcases List.length_eq_one.1 h with ⟨o, ho⟩
    rw [ho]
    rfl
  · rw [h1]
    rcases List.length_eq_one.1 h2 with ⟨o, ho⟩
    rw [ho]
    rfl

/-- A named-star table storing the spaced form of a designation that
the witness queries unspaced, with the letter case agreeing. -/
def envStarSpaced : MatchEnv :=
  { getImage := fun _ => none
    messierCat := [], ngcCat := [], namedStarCat := [⟨"Alp Cen", 219, -60⟩]
    messierQuery := fun _ _ _ => []
    ngcQuery := fun _ _ _ => []
    starQuery := fun _ _ _ => []
    buildWcs := fun _ => none }

theorem claim_C9_amended_witness :
    (getCatalogCoords envStarSpaced CatalogType.NAMED_STAR "AlpCen").isSome = true :=
  claim_C9_space_normalized_lookup envStarSpaced "AlpCen" (Or.inr ⟨by decide, by decide⟩)

end AstroCat
